import Mathlib

/-!
Shallow embedding of the XFF extraction and JSON alert logging core of the
serializingme/suricata repository (src/app-layer-htp-xff.c,
src/app-layer-htp-xff.h, src/output-json-alert.c), together with theorems
settling the specification claims about it.

Machine integers are modelled as `Nat` (all values involved are small and
non-negative; no arithmetic in the modelled code can overflow).  C byte
strings are modelled as `String`/`List Char` (the modelled code only ever
inspects them as NUL-terminated ASCII text).  Fallible C functions returning
a found/not-found int together with an out-parameter are modelled as
`Option`-returning functions.
-/

set_option linter.unusedVariables false

namespace Suricata

/-! ## JSON value model (jansson interface)

The jansson JSON library is an external collaborator; only object
construction, key set (insert-or-replace), key delete and key lookup are
consumed by the modelled code. -/

/-- A JSON value, as far as the alert logger constructs them: strings,
integers, and objects (ordered key/value association lists). -/
inductive JVal where
  | jstr : String → JVal
  | jint : Nat → JVal
  | jobj : List (String × JVal) → JVal

/-- A JSON object body: an association list of keys to values.  jansson
objects have unique keys; set replaces an existing binding. -/
abbrev Obj := List (String × JVal)

/-- `json_object_set_new` / `json_object_set`: insert-or-replace a key. -/
def setKey : Obj → String → JVal → Obj
  | [], k, v => [(k, v)]
  | (k', v') :: rest, k, v =>
    if k' = k then (k, v) :: rest else (k', v') :: setKey rest k v

/-- `json_object_del`: remove a key. -/
def delKey : Obj → String → Obj
  | [], _ => []
  | (k', v) :: rest, k =>
    if k' = k then delKey rest k else (k', v) :: delKey rest k

/-- `json_object_get`: look up a key. -/
def getKey : Obj → String → Option JVal
  | [], _ => none
  | (k', v) :: rest, k => if k' = k then some v else getKey rest k

theorem getKey_setKey (o : Obj) (k k' : String) (v : JVal) :
    getKey (setKey o k v) k' = if k' = k then some v else getKey o k' := by
  induction o with
  | nil =>
    by_cases h : k' = k
    · subst h; simp [setKey, getKey]
    · simp [setKey, getKey, h, Ne.symm h]
  | cons p rest ih =>
    obtain ⟨k₁, v₁⟩ := p
    by_cases h1 : k₁ = k
    · subst h1
      by_cases h2 : k' = k₁
      · subst h2; simp [setKey, getKey]
      · simp [setKey, getKey, h2, Ne.symm h2]
    · by_cases h2 : k₁ = k'
      · subst h2
        simp [setKey, getKey, h1, Ne.symm h1]
      · simp [setKey, getKey, h1, h2, Ne.symm h2, ih]

theorem getKey_setKey_ne (o : Obj) (k k' : String) (v : JVal) (h : k' ≠ k) :
    getKey (setKey o k v) k' = getKey o k' := by
  rw [getKey_setKey, if_neg h]

theorem getKey_setKey_same (o : Obj) (k : String) (v : JVal) :
    getKey (setKey o k v) k = some v := by
  rw [getKey_setKey, if_pos rfl]

theorem getKey_delKey (o : Obj) (k k' : String) :
    getKey (delKey o k) k' = if k' = k then none else getKey o k' := by
  induction o with
  | nil => by_cases h : k' = k <;> simp [delKey, getKey, h]
  | cons p rest ih =>
    obtain ⟨k₁, v₁⟩ := p
    by_cases h1 : k₁ = k
    · subst h1
      by_cases h2 : k' = k₁
      · subst h2; simp [delKey, getKey, ih]
      · simp [delKey, getKey, h2, Ne.symm h2, ih]
    · by_cases h2 : k₁ = k'
      · subst h2
        simp [delKey, getKey, h1, Ne.symm h1]
      · simp [delKey, getKey, h1, h2, Ne.symm h2, ih]

theorem getKey_delKey_ne (o : Obj) (k k' : String) (h : k' ≠ k) :
    getKey (delKey o k) k' = getKey o k' := by
  rw [getKey_delKey, if_neg h]

/-! ## Character and string helpers -/

/-- ASCII case-insensitive string equality (`strcasecmp(a,b) == 0`, and the
case-insensitive key comparison of `htp_table_get_c`). -/
def lowerEqS (a b : String) : Bool :=
  a.data.map Char.toLower == b.data.map Char.toLower

/-- The suffix of a character list strictly after its last space character;
the whole list when no space occurs.  This is the candidate selection done
in `GetXFFIPFromTx` with `memrchr(xff_chain, ' ', len)`: on a hit the
candidate starts one past the last space, on a miss at the buffer start. -/
def afterLastSpace (cs : List Char) : List Char :=
  (cs.reverse.takeWhile (fun c => c ≠ ' ')).reverse

/-- Split a character list on a separator character (used to analyse the
dotted/colon-separated structure of IP literals). -/
def splitOnChar (sep : Char) : List Char → List (List Char)
  | [] => [[]]
  | c :: rest =>
    let r := splitOnChar sep rest
    if c == sep then [] :: r
    else
      match r with
      | [] => [[c]]
      | g :: gs => (c :: g) :: gs

/-! ## IP literal validation

Modelled from the spec: `GetXFFIPFromTx` validates the candidate with the
libc functions `inet_pton(AF_INET, ...)` and `inet_pton(AF_INET6, ...)`,
which are external to the repository; the spec specifies them only at their
interface ("validate candidate as IPv4 or IPv6 literal").  The model below
follows the standard (glibc) acceptance rules. -/

/-- Decimal value of a digit list (most significant first). -/
def decValue (cs : List Char) : Nat :=
  cs.foldl (fun a c => a * 10 + (c.toNat - 48)) 0

/-- Modelled from the spec: one dotted-quad octet as accepted by
`inet_pton(AF_INET, ...)`: 1-3 decimal digits, no leading zero except the
single digit `0`, value at most 255. -/
def octetOK : List Char → Bool
  | [] => false
  | ['0'] => true
  | c :: rest =>
    c.isDigit && (c != '0') && rest.all Char.isDigit &&
      decide ((c :: rest).length ≤ 3) && decide (decValue (c :: rest) ≤ 255)

/-- Modelled from the spec: `inet_pton(AF_INET, ...) == 1` — a strict
dotted-quad IPv4 literal. -/
def inet_pton4 (cs : List Char) : Bool :=
  let parts := splitOnChar '.' cs
  decide (parts.length = 4) && parts.all octetOK

/-- Hexadecimal digit test (ASCII). -/
def isHexDig (c : Char) : Bool :=
  c.isDigit || ('a' ≤ c && c ≤ 'f') || ('A' ≤ c && c ≤ 'F')

/-- One 16-bit IPv6 group: 1-4 hexadecimal digits. -/
def hexGroupOK (cs : List Char) : Bool :=
  decide (1 ≤ cs.length) && decide (cs.length ≤ 4) && cs.all isHexDig

/-- Weight (in 16-bit group units) of a colon-separated tail of an IPv6
literal: all hex groups, or hex groups followed by one embedded dotted-quad
IPv4 literal (which occupies two group slots).  `none` when invalid. -/
def v6TailWeight (parts : List (List Char)) : Option Nat :=
  if parts.all hexGroupOK then some parts.length
  else
    match parts.reverse with
    | [] => none
    | lastp :: revInit =>
      if revInit.reverse.all hexGroupOK && inet_pton4 lastp then
        some (revInit.length + 2)
      else none

/-- Modelled from the spec: `inet_pton(AF_INET6, ...) == 1` — an IPv6
literal: eight colon-separated groups, or fewer groups with a single `::`
abbreviation, optionally ending in an embedded IPv4 dotted quad. -/
def inet_pton6 (cs : List Char) : Bool :=
  let parts := splitOnChar ':' cs
  let nonE : List Char → Bool := fun g => !g.isEmpty
  if parts.all nonE then
    v6TailWeight parts == some 8
  else
    let check : List (List Char) → List (List Char) → Bool := fun left right =>
      left.all hexGroupOK &&
        (match v6TailWeight right with
         | some w => decide (left.length + w ≤ 7)
         | none => false)
    match parts with
    | [] :: [] :: right =>
      (right == [[]]) || (!right.isEmpty && right.all nonE && check [] right)
    | _ =>
      let left := parts.takeWhile nonE
      match parts.drop left.length with
      | [] :: right =>
        if left.isEmpty then false
        else if right == [[]] then check left []
        else !right.isEmpty && right.all nonE && check left right
      | _ => false

/-- The sanity check applied to the extracted candidate in
`GetXFFIPFromTx`: `inet_pton(AF_INET, ...) == 1 || inet_pton(AF_INET6, ...) == 1`. -/
def isIPLiteral (cs : List Char) : Bool :=
  inet_pton4 cs || inet_pton6 cs

/-! ## HTTP flow data model (external collaborators)

The HTTP transaction parser/store is external; only the operations consumed
by the core are modelled: application state lookup on a flow, transaction
count, transaction lookup by ascending zero-based index, and
case-insensitive request header lookup. -/

/-- One HTTP transaction: its request header table
(`tx->request_headers`, possibly NULL), and the externally-formatted HTTP
summary object that `JsonHttpLogJSONBasic`/`JsonHttpLogJSONExtended`
(external) produce for it. -/
structure HtpTx where
  request_headers : Option (List (String × String))
  summary : Obj

/-- The per-flow HTTP state: its transactions, addressed by ascending
zero-based index (`AppLayerParserGetTxCnt` / `AppLayerParserGetTx`). -/
structure HtpState where
  txs : List HtpTx

/-- The relevant view of a flow: its application state
(`FlowGetAppState`, NULL when no HTTP state), whether its application
protocol is HTTP (`FlowGetAppProtocol(f) == ALPROTO_HTTP`), and the
currently-logged transaction id (`AppLayerParserGetTransactionLogId`). -/
structure Flow where
  alstate : Option HtpState
  isHTTP : Bool
  logged_tx_id : Nat

/-! ## XFF extraction (src/app-layer-htp-xff.c) -/

/-- XFF header value minimal length (`XFF_CHAIN_MINLEN`). -/
def XFF_CHAIN_MINLEN : Nat := 7
/-- XFF header value maximum length (`XFF_CHAIN_MAXLEN`). -/
def XFF_CHAIN_MAXLEN : Nat := 256
/-- Default XFF header name (`XFF_DEFAULT`). -/
def XFF_DEFAULT : String := "X-Forwarded-For"
/-- Single XFF IP maximum length (`XFF_MAXLEN`, app-layer-htp-xff.h). -/
def XFF_MAXLEN : Nat := 46

/-- Case-insensitive request header lookup (`htp_table_get_c`). -/
def headerLookup (hs : List (String × String)) (name : String) : Option String :=
  match hs.find? (fun h => lowerEqS h.1 name) with
  | some h => some h.2
  | none => none

/-- Modelled from the spec: `strlcpy(dst, src, dstbuflen)` (libc, external)
copies at most `dstbuflen - 1` characters, truncating to the buffer
capacity. -/
def strlcpyStr (cs : List Char) (dstbuflen : Nat) : String :=
  String.mk (cs.take (dstbuflen - 1))

/-- `GetXFFIPFromTx` (src/app-layer-htp-xff.c:41-92).  The C function takes
the packet and reads `p->flow`; the model takes the flow directly.  The
found/not-found int return with `dstbuf` out-parameter is modelled as
`Option String` (`some` = returned 1 with the copied IP, `none` =
returned 0). -/
def GetXFFIPFromTx (f : Flow) (tx_id : Nat) (xff_header : String)
    (dstbuflen : Nat) : Option String :=
  match f.alstate with
  | none => none
  | some htp_state =>
    if tx_id ≥ htp_state.txs.length then none
    else
      match htp_state.txs.get? tx_id with
      | none => none
      | some tx =>
        match tx.request_headers with
        | none => none
        | some hs =>
          match headerLookup hs xff_header with
          | none => none
          | some v =>
            if XFF_CHAIN_MINLEN ≤ v.length ∧ v.length < XFF_CHAIN_MAXLEN then
              let p_xff := afterLastSpace v.data
              if isIPLiteral p_xff then some (strlcpyStr p_xff dstbuflen)
              else none
            else none

/-- The ascending scan loop of `GetXFFIP` (`for (; tx_id < total_txs; tx_id++)`),
with the remaining iteration count made explicit. -/
def GetXFFIPLoop (f : Flow) (xff_header : String) (dstbuflen : Nat) :
    Nat → Nat → Option String
  | _, 0 => none
  | tx_id, n + 1 =>
    match GetXFFIPFromTx f tx_id xff_header dstbuflen with
    | some ip => some ip
    | none => GetXFFIPLoop f xff_header dstbuflen (tx_id + 1) n

/-- `GetXFFIP` (src/app-layer-htp-xff.c:99-119): scan transactions by
ascending index starting at 0, returning the first hit. -/
def GetXFFIP (f : Flow) (xff_header : String) (dstbuflen : Nat) : Option String :=
  match f.alstate with
  | none => none
  | some htp_state =>
    GetXFFIPLoop f xff_header dstbuflen 0 htp_state.txs.length

/-! ## Configuration tree (external conf.c interface) -/

/-- A configuration node: a name, an optional value, and child nodes
(the `ConfNode` tree of conf.c, external to src/). -/
inductive ConfNode where
  | mk : String → Option String → List ConfNode → ConfNode

/-- The node's name. -/
def ConfNode.name : ConfNode → String
  | .mk n _ _ => n

/-- The node's value. -/
def ConfNode.val : ConfNode → Option String
  | .mk _ v _ => v

/-- The node's children. -/
def ConfNode.children : ConfNode → List ConfNode
  | .mk _ _ c => c

/-- `ConfNodeLookupChild`: find a direct child by exact name. -/
def ConfNodeLookupChild (node : ConfNode) (key : String) : Option ConfNode :=
  node.children.find? (fun c => c.name == key)

/-- `ConfNodeLookupChildValue`: the value of a direct child, when present. -/
def ConfNodeLookupChildValue (node : ConfNode) (key : String) : Option String :=
  match ConfNodeLookupChild node key with
  | some c => c.val
  | none => none

/-- Modelled from the spec: `ConfValIsTrue` (conf.c, not under src/) — a
boolean configuration value is true when it is one of `1`, `yes`, `true`,
`on`, case-insensitively. -/
def ConfValIsTrue (v : String) : Bool :=
  lowerEqS v "1" || lowerEqS v "yes" || lowerEqS v "true" || lowerEqS v "on"

/-- `ConfNodeChildValueIsTrue`: whether the named child's value is a true
boolean; false when the child or its value is absent. -/
def ConfNodeChildValueIsTrue (node : ConfNode) (key : String) : Bool :=
  match ConfNodeLookupChildValue node key with
  | some v => ConfValIsTrue v
  | none => false

/-! ## XFF configuration (src/app-layer-htp-xff.h, GetXFFCfg) -/

/-- XFF is disabled (`XFF_DISABLED`). -/
def XFF_DISABLED : Nat := 1
/-- XFF extra data mode (`XFF_EXTRADATA`). -/
def XFF_EXTRADATA : Nat := 2
/-- XFF overwrite mode (`XFF_OVERWRITE`). -/
def XFF_OVERWRITE : Nat := 4

/-- The `XFFCfg` struct: a bit-flag `mode` byte and a header-name pointer.
`header` is `Option String`, `none` standing for a NULL / still-unset
pointer. -/
structure XFFCfg where
  mode : Nat
  header : Option String
deriving Repr, DecidableEq

/-- `GetXFFCfg` (src/app-layer-htp-xff.c:121-159).  The C function mutates
`result` in place; the model maps the initial contents of `*result` to the
final contents.  `conf = none` models a NULL `ConfNode *`: the function's
`BUG_ON` is an `assert` that is compiled out in release builds, and the
subsequent `if (conf != NULL)` check then routes NULL to the disabled
branch.  Note the enabled branch ORs the mode bit into whatever `result->mode`
already holds (`result->mode |= ...`), while the disabled branch assigns
(`result->mode = XFF_DISABLED`). -/
def GetXFFCfg (conf : Option ConfNode) (result : XFFCfg) : XFFCfg :=
  let xff_node : Option ConfNode :=
    match conf with
    | none => none
    | some c => ConfNodeLookupChild c "xff"
  match xff_node with
  | some xn =>
    if ConfNodeChildValueIsTrue xn "enabled" then
      let result :=
        match ConfNodeLookupChildValue xn "mode" with
        | some xff_mode =>
          if lowerEqS xff_mode "overwrite" then
            { result with mode := result.mode ||| XFF_OVERWRITE }
          else
            { result with mode := result.mode ||| XFF_EXTRADATA }
        | none => { result with mode := result.mode ||| XFF_EXTRADATA }
      match ConfNodeLookupChildValue xn "header" with
      | some h => { result with header := some h }
      | none => { result with header := some XFF_DEFAULT }
    else { result with mode := XFF_DISABLED }
  | none => { result with mode := XFF_DISABLED }

/-! ## JSON alert logger (src/output-json-alert.c)

External collaborators modelled at their interface: the signature/detection
engine (signature fields, alert flags), stream reassembly
(`StreamSegmentForEach`), the printable sanitizer (`PrintStringsToBuffer`),
the base64 codec (`Base64Encode`), and the per-packet common JSON header
(`CreateJSONHeader`). -/

/-- `LOG_JSON_PAYLOAD` — set by the `payload-printable` sub-module flag. -/
def LOG_JSON_PAYLOAD : Nat := 1
/-- `LOG_JSON_PACKET` — set by the `packet` sub-module flag. -/
def LOG_JSON_PACKET : Nat := 2
/-- `LOG_JSON_PAYLOAD_BASE64` — set by the `payload` sub-module flag. -/
def LOG_JSON_PAYLOAD_BASE64 : Nat := 4
/-- `LOG_JSON_HTTP` — set by the `http` sub-module flag.  Note the source
defines it as 5, which is not a fresh bit: it overlaps
`LOG_JSON_PAYLOAD ||| LOG_JSON_PAYLOAD_BASE64`. -/
def LOG_JSON_HTTP : Nat := 5

/-- Modelled from the spec: the success return code `TM_ECODE_OK` of the
thread-module interface (tm-threads-common.h, not under src/). -/
def TM_ECODE_OK : Nat := 0

/-- The relevant fields of a `Signature` (detect.h, external): gid, id,
rev, message, classification message, priority. -/
structure Signature where
  gid : Nat
  id : Nat
  rev : Nat
  msg : Option String
  class_msg : Option String
  prio : Nat

/-- One `PacketAlert`.  The C action bitset and flag bitset are read by the
core only through the membership tests modelled here as booleans:
`action & (ACTION_REJECT|ACTION_REJECT_DST|ACTION_REJECT_BOTH)`,
`action & ACTION_DROP`, `flags & PACKET_ALERT_FLAG_TX`,
`flags & PACKET_ALERT_FLAG_STATE_MATCH`, `flags & PACKET_ALERT_FLAG_STREAM_MATCH`. -/
structure PacketAlert where
  s : Option Signature
  action_reject : Bool
  action_drop : Bool
  flag_tx : Bool
  flag_state_match : Bool
  flag_stream_match : Bool
  tx_id : Nat

/-- The view of a `Packet` consumed by `AlertJson`.  `flow_toserver` and
`flow_toclient` are the two direction bits of `p->flowflags`;
`stream_seg dir` is the reassembled byte stream that
`StreamSegmentForEach(p, dir, ...)` (external) walks, with `dir = true`
standing for `FLOW_PKT_TOCLIENT`; `baseJson` is the externally-supplied
common record produced by `CreateJSONHeader` (timestamp, flow tuple,
event type). -/
structure Packet where
  alerts : List PacketAlert
  flow : Option Flow
  proto_tcp : Bool
  flow_toserver : Bool
  flow_toclient : Bool
  payload : List Nat
  pkt_data : List Nat
  stream_seg : Bool → List Nat
  baseJson : Obj

/-- The `AlertJsonOutputCtx`: sub-module flag bits and the shared XFF
configuration.  `ips_mode` threads the global `EngineModeIsIPS()`
predicate explicitly. -/
structure AlertJsonOutputCtx where
  flags : Nat
  xff_cfg : XFFCfg
  ips_mode : Bool

/-- Outcomes of the fallible jansson allocations in `AlertJson`, one
per allocation site: `header_ok` for `CreateJSONHeader`, `ajs_ok i` for the
per-alert `json_object()` at loop index `i`, `hjs_ok i` for the
`json_object()` inside `AlertJsonHttp` for loop index `i`. -/
structure AllocOracle where
  header_ok : Bool
  ajs_ok : Nat → Bool
  hjs_ok : Nat → Bool

/-- Modelled from the spec: `PrintStringsToBuffer` (util-print.c, external)
— printable-sanitized text of a byte sequence; non-printable bytes are
replaced. -/
def printableStr (bs : List Nat) : String :=
  String.mk (bs.map (fun b => if 32 ≤ b ∧ b < 127 then Char.ofNat b else '.'))

/-- Standard base64 alphabet character. -/
def b64Char (n : Nat) : Char :=
  "ABCDEFGHIJKLMNOPQRSTUVWXYZabcdefghijklmnopqrstuvwxyz0123456789+/".data.getD n 'A'

/-- Base64 encoding of a byte list, three bytes at a time. -/
def base64Chunks : List Nat → List Char
  | [] => []
  | [a] => [b64Char (a / 4 % 64), b64Char (a % 4 * 16), '=', '=']
  | [a, b] => [b64Char (a / 4 % 64), b64Char (a % 4 * 16 + b / 16 % 16), b64Char (b % 16 * 4), '=']
  | a :: b :: c :: rest =>
    b64Char (a / 4 % 64) :: b64Char (a % 4 * 16 + b / 16 % 16) ::
      b64Char (b % 16 * 4 + c / 64 % 4) :: b64Char (c % 64) :: base64Chunks rest

/-- Modelled from the spec: `Base64Encode` (util-crypt.c, external to the
core) — base64 text of a byte sequence. -/
def base64Encode (bs : List Nat) : String :=
  String.mk (base64Chunks bs)

/-- Conditional key set, the shape of each `if (flags & ...)` enrichment
write in `AlertJson`. -/
def setIf (b : Bool) (k : String) (v : JVal) (js : Obj) : Obj :=
  if b then setKey js k v else js

/-- The action string selection (output-json-alert.c:149-154 / 317-322):
`"blocked"` for any reject action, or for drop while the engine is inline. -/
def alertActionString (ctx : AlertJsonOutputCtx) (pa : PacketAlert) : String :=
  if pa.action_reject then "blocked"
  else if pa.action_drop && ctx.ips_mode then "blocked"
  else "allowed"

/-- The per-alert `alert` sub-object (output-json-alert.c:162-173): base
fields, plus `tx_id` only for transaction-scoped alerts. -/
def alertObj (ctx : AlertJsonOutputCtx) (pa : PacketAlert) (s : Signature) : Obj :=
  [("action", JVal.jstr (alertActionString ctx pa)),
   ("gid", JVal.jint s.gid),
   ("signature_id", JVal.jint s.id),
   ("rev", JVal.jint s.rev),
   ("signature", JVal.jstr (s.msg.getD "")),
   ("category", JVal.jstr (s.class_msg.getD "")),
   ("severity", JVal.jint s.prio)]
  ++ (if pa.flag_tx then [("tx_id", JVal.jint pa.tx_id)] else [])

/-- `AlertJsonHttp` (output-json-alert.c:105-125): when the flow has HTTP
state and its currently-logged transaction exists, attach the
externally-formatted HTTP summary under `http`; a failed `json_object()`
allocation (`hjs_ok = false`) just skips the attachment. -/
def AlertJsonHttp (f : Flow) (hjs_ok : Bool) (js : Obj) : Obj :=
  match f.alstate with
  | none => js
  | some htp_state =>
    match htp_state.txs.get? f.logged_tx_id with
    | none => js
    | some tx => if hjs_ok then setKey js "http" (JVal.jobj tx.summary) else js

/-- The HTTP enrichment step (output-json-alert.c:178-189): guarded by
`flags & LOG_JSON_HTTP`, a present flow and application protocol HTTP. -/
def httpSection (ctx : AlertJsonOutputCtx) (p : Packet) (hjs_ok : Bool) (js : Obj) : Obj :=
  if ctx.flags &&& LOG_JSON_HTTP != 0 then
    match p.flow with
    | some f => if f.isHTTP then AlertJsonHttp f hjs_ok js else js
    | none => js
  else js

/-- The payload enrichment step (output-json-alert.c:192-246).  A TCP
packet whose alert is state- or stream-matched is a stream alert: the
payload buffer is gathered from the reassembled direction opposite the
packet's, else the packet's own payload is used; `payload` (base64) and
`payload_printable` are written per their flags, then `stream` records
which case applied.  (In the stream case the C passes the `MemBuffer`
struct pointer itself to `Base64Encode`; the model encodes the gathered
buffer contents — the value written is irrelevant to every claim, only the
key is tracked.) -/
def payloadSection (ctx : AlertJsonOutputCtx) (p : Packet) (pa : PacketAlert) (js : Obj) : Obj :=
  if ctx.flags &&& (LOG_JSON_PAYLOAD ||| LOG_JSON_PAYLOAD_BASE64) != 0 then
    let stream := p.proto_tcp && (pa.flag_state_match || pa.flag_stream_match)
    let buf := if stream then printableStr (p.stream_seg p.flow_toserver)
               else printableStr p.payload
    let js := setIf (ctx.flags &&& LOG_JSON_PAYLOAD_BASE64 != 0) "payload"
        (JVal.jstr (base64Encode (buf.data.map Char.toNat))) js
    let js := setIf (ctx.flags &&& LOG_JSON_PAYLOAD != 0) "payload_printable"
        (JVal.jstr buf) js
    setKey js "stream" (JVal.jint (if stream then 1 else 0))
  else js

/-- The raw packet capture step (output-json-alert.c:249-254). -/
def packetSection (ctx : AlertJsonOutputCtx) (p : Packet) (js : Obj) : Obj :=
  setIf (ctx.flags &&& LOG_JSON_PACKET != 0) "packet"
    (JVal.jstr (base64Encode p.pkt_data)) js

/-- The XFF IP resolution for one alert (output-json-alert.c:263-270):
only for an HTTP flow; by the alert's transaction when it is
transaction-scoped, else by flow scan.  A NULL header pointer (never
produced by `GetXFFCfg` for an enabled mode) resolves nothing. -/
def resolveXFF (ctx : AlertJsonOutputCtx) (pa : PacketAlert) (f : Flow) : Option String :=
  if f.isHTTP then
    match ctx.xff_cfg.header with
    | none => none
    | some hdr =>
      if pa.flag_tx then GetXFFIPFromTx f pa.tx_id hdr XFF_MAXLEN
      else GetXFFIP f hdr XFF_MAXLEN
  else none

/-- The XFF enrichment step (output-json-alert.c:256-286): skipped when the
mode has the disabled bit or the flow is absent; on a resolved IP, extra-data
mode attaches `xff`, otherwise overwrite mode replaces `dest_ip` for
to-client packets and `src_ip` otherwise. -/
def xffSection (ctx : AlertJsonOutputCtx) (p : Packet) (pa : PacketAlert) (js : Obj) : Obj :=
  match p.flow with
  | none => js
  | some f =>
    if ctx.xff_cfg.mode &&& XFF_DISABLED = 0 then
      match resolveXFF ctx pa f with
      | some ip =>
        if ctx.xff_cfg.mode &&& XFF_EXTRADATA != 0 then
          setKey js "xff" (JVal.jstr ip)
        else if ctx.xff_cfg.mode &&& XFF_OVERWRITE != 0 then
          if p.flow_toclient then setKey js "dest_ip" (JVal.jstr ip)
          else setKey js "src_ip" (JVal.jstr ip)
        else js
      | none => js
    else js

/-- One alert's record assembly (the loop body of `AlertJson`,
output-json-alert.c:149-287, after the `json_object()` for the alert
sub-object succeeded): set `alert`, then conditionally enrich with http,
payload, packet capture and XFF. -/
def buildRecord (ctx : AlertJsonOutputCtx) (p : Packet) (hjs_ok : Bool)
    (pa : PacketAlert) (s : Signature) (js : Obj) : Obj :=
  xffSection ctx p pa
    (packetSection ctx p
      (payloadSection ctx p pa
        (httpSection ctx p hjs_ok
          (setKey js "alert" (JVal.jobj (alertObj ctx pa s))))))

/-- The alert loop of `AlertJson` (output-json-alert.c:143-290):
alerts with a NULL signature are skipped; a failed per-alert
`json_object()` allocation aborts the remaining alerts (the C returns
`TM_ECODE_OK` from inside the loop); after each emitted record only the
`alert` key is deleted from the shared object before the next iteration. -/
def runAlerts (ctx : AlertJsonOutputCtx) (p : Packet) (orc : AllocOracle) :
    Nat → List PacketAlert → Obj → List Obj
  | _, [], _ => []
  | i, pa :: rest, js =>
    match pa.s with
    | none => runAlerts ctx p orc (i + 1) rest js
    | some s =>
      if orc.ajs_ok i then
        let r := buildRecord ctx p (orc.hjs_ok i) pa s js
        r :: runAlerts ctx p orc (i + 1) rest (delKey r "alert")
      else []

/-- `AlertJson` (output-json-alert.c:127-295): the emitted records in
order, together with the return code.  Every return site in the C function
returns `TM_ECODE_OK`; a packet without alerts, or a failed
`CreateJSONHeader`, emits nothing. -/
def AlertJson (ctx : AlertJsonOutputCtx) (p : Packet) (orc : AllocOracle) :
    List Obj × Nat :=
  if p.alerts.length = 0 then ([], TM_ECODE_OK)
  else if orc.header_ok then
    (runAlerts ctx p orc 0 p.alerts p.baseJson, TM_ECODE_OK)
  else ([], TM_ECODE_OK)

/-- The `eve-log.alert` sub-module configuration values read by
`JsonAlertLogInitCtxSub` (output-json-alert.c:507-533). -/
structure AlertSubConf where
  payload : Option String
  packet : Option String
  payload_printable : Option String
  http : Option String

/-- The flag assembly of `JsonAlertLogInitCtxSub`
(output-json-alert.c:513-532): each present-and-true value ORs its
`LOG_JSON_*` constant into the flags. -/
def JsonAlertLogFlags (c : AlertSubConf) : Nat :=
  let f := 0
  let f := if (c.http.map ConfValIsTrue).getD false then f ||| LOG_JSON_HTTP else f
  let f := if (c.payload_printable.map ConfValIsTrue).getD false then f ||| LOG_JSON_PAYLOAD else f
  let f := if (c.payload.map ConfValIsTrue).getD false then f ||| LOG_JSON_PAYLOAD_BASE64 else f
  if (c.packet.map ConfValIsTrue).getD false then f ||| LOG_JSON_PACKET else f

/-! ## Concrete fixtures used by the claim theorems and witnesses -/

/-- A transaction whose XFF header carries a chain ending in a valid IPv4
literal. -/
def txChainGood : HtpTx :=
  { request_headers := some [("X-Forwarded-For", "10.0.0.1, 203.0.113.5")],
    summary := [] }

/-- A transaction whose XFF header chain ends in a non-IP token. -/
def txChainBad : HtpTx :=
  { request_headers := some [("X-Forwarded-For", "10.0.0.1, not-an-ip")],
    summary := [] }

/-- An HTTP flow with a single transaction carrying the good chain. -/
def flowChainGood : Flow :=
  { alstate := some ⟨[txChainGood]⟩, isHTTP := true, logged_tx_id := 0 }

/-- An HTTP flow with a single transaction carrying the bad chain. -/
def flowChainBad : Flow :=
  { alstate := some ⟨[txChainBad]⟩, isHTTP := true, logged_tx_id := 0 }

/-- An HTTP flow whose first transaction does not match and whose second
does: `GetXFFIP` must return the second's IP. -/
def flowScan : Flow :=
  { alstate := some ⟨[txChainBad, txChainGood]⟩, isHTTP := true, logged_tx_id := 0 }

/-! ## Claim theorems -/

/-- Claim C2: for every header value accepted by `GetXFFIPFromTx`, the
candidate checked is the substring after the last space of the value (the
whole value when no space occurs); the result is found exactly when the
candidate parses as an IPv4 or IPv6 literal (truncated to the destination
capacity), and a parse failure yields not-found with no fallback to earlier
tokens.  In particular `"10.0.0.1, 203.0.113.5"` yields `"203.0.113.5"` and
`"10.0.0.1, not-an-ip"` yields not-found. -/
theorem GetXFFIPFromTx_last_token :
    (∀ (f : Flow) (st : HtpState) (tx : HtpTx) (hs : List (String × String))
       (v hdr : String) (tx_id dlen : Nat),
      f.alstate = some st → st.txs.get? tx_id = some tx →
      tx.request_headers = some hs → headerLookup hs hdr = some v →
      XFF_CHAIN_MINLEN ≤ v.length → v.length < XFF_CHAIN_MAXLEN →
      GetXFFIPFromTx f tx_id hdr dlen =
        if isIPLiteral (afterLastSpace v.data) then
          some (strlcpyStr (afterLastSpace v.data) dlen)
        else none)
    ∧ afterLastSpace "10.0.0.1, 203.0.113.5".data = "203.0.113.5".data
    ∧ GetXFFIPFromTx flowChainGood 0 "X-Forwarded-For" XFF_MAXLEN = some "203.0.113.5"
    ∧ afterLastSpace "10.0.0.1, not-an-ip".data = "not-an-ip".data
    ∧ GetXFFIPFromTx flowChainBad 0 "X-Forwarded-For" XFF_MAXLEN = none := by
  refine ⟨?_, by decide, by decide, by decide, by decide⟩
  intro f st tx hs v hdr tx_id dlen h1 h2 h3 h4 h5 h6
  have hlt : tx_id < st.txs.length := by
    by_contra hn
    rw [List.get?_eq_none.mpr (Nat.le_of_not_lt hn)] at h2
    exact Option.noConfusion h2
  unfold GetXFFIPFromTx
  rw [h1]
  simp only
  rw [if_neg (by omega : ¬ tx_id ≥ st.txs.length), h2]
  simp only
  rw [h3]
  simp only
  rw [h4]
  simp only
  rw [if_pos ⟨h5, h6⟩]

/-- Witness for C2: the general clause applied to the concrete good-chain
flow, discharging every hypothesis there. -/
theorem GetXFFIPFromTx_last_token_witness :
    GetXFFIPFromTx flowChainGood 0 "X-Forwarded-For" XFF_MAXLEN =
      if isIPLiteral (afterLastSpace ("10.0.0.1, 203.0.113.5" : String).data) then
        some (strlcpyStr (afterLastSpace ("10.0.0.1, 203.0.113.5" : String).data) XFF_MAXLEN)
      else none :=
  GetXFFIPFromTx_last_token.1 flowChainGood ⟨[txChainGood]⟩ txChainGood
    [("X-Forwarded-For", "10.0.0.1, 203.0.113.5")] "10.0.0.1, 203.0.113.5"
    "X-Forwarded-For" 0 XFF_MAXLEN rfl rfl rfl (by decide) (by decide) (by decide)

/-- Claim C3: `GetXFFIPFromTx` returns not-found (0), never an error, when
the flow has no HTTP state, when the transaction index is at or beyond the
transaction count, when the transaction's request carries no header table or
no header of the given name, and when the header value's length is below 7
or at least 256. -/
theorem GetXFFIPFromTx_not_found_cases :
    (∀ (f : Flow) (tx_id : Nat) (hdr : String) (dlen : Nat),
      f.alstate = none → GetXFFIPFromTx f tx_id hdr dlen = none)
    ∧ (∀ (f : Flow) (st : HtpState) (tx_id : Nat) (hdr : String) (dlen : Nat),
      f.alstate = some st → st.txs.length ≤ tx_id →
      GetXFFIPFromTx f tx_id hdr dlen = none)
    ∧ (∀ (f : Flow) (st : HtpState) (tx : HtpTx) (tx_id : Nat) (hdr : String) (dlen : Nat),
      f.alstate = some st → st.txs.get? tx_id = some tx →
      tx.request_headers = none → GetXFFIPFromTx f tx_id hdr dlen = none)
    ∧ (∀ (f : Flow) (st : HtpState) (tx : HtpTx) (hs : List (String × String))
        (tx_id : Nat) (hdr : String) (dlen : Nat),
      f.alstate = some st → st.txs.get? tx_id = some tx →
      tx.request_headers = some hs → headerLookup hs hdr = none →
      GetXFFIPFromTx f tx_id hdr dlen = none)
    ∧ (∀ (f : Flow) (st : HtpState) (tx : HtpTx) (hs : List (String × String))
        (v hdr : String) (tx_id dlen : Nat),
      f.alstate = some st → st.txs.get? tx_id = some tx →
      tx.request_headers = some hs → headerLookup hs hdr = some v →
      (v.length < XFF_CHAIN_MINLEN ∨ XFF_CHAIN_MAXLEN ≤ v.length) →
      GetXFFIPFromTx f tx_id hdr dlen = none) := by
  refine ⟨?_, ?_, ?_, ?_, ?_⟩
  · intro f tx_id hdr dlen h1
    unfold GetXFFIPFromTx
    rw [h1]
  · intro f st tx_id hdr dlen h1 h2
    unfold GetXFFIPFromTx
    rw [h1]
    simp only
    rw [if_pos h2]
  · intro f st tx tx_id hdr dlen h1 h2 h3
    have hlt : tx_id < st.txs.length := by
      by_contra hn
      rw [List.get?_eq_none.mpr (Nat.le_of_not_lt hn)] at h2
      exact Option.noConfusion h2
    unfold GetXFFIPFromTx
    rw [h1]
    simp only
    rw [if_neg (by omega : ¬ tx_id ≥ st.txs.length), h2]
    simp only
    rw [h3]
  · intro f st tx hs tx_id hdr dlen h1 h2 h3 h4
    have hlt : tx_id < st.txs.length := by
      by_contra hn
      rw [List.get?_eq_none.mpr (Nat.le_of_not_lt hn)] at h2
      exact Option.noConfusion h2
    unfold GetXFFIPFromTx
    rw [h1]
    simp only
    rw [if_neg (by omega : ¬ tx_id ≥ st.txs.length), h2]
    simp only
    rw [h3]
    simp only
    rw [h4]
  · intro f st tx hs v hdr tx_id dlen h1 h2 h3 h4 h5
    have hlt : tx_id < st.txs.length := by
      by_contra hn
      rw [List.get?_eq_none.mpr (Nat.le_of_not_lt hn)] at h2
      exact Option.noConfusion h2
    unfold GetXFFIPFromTx
    rw [h1]
    simp only
    rw [if_neg (by omega : ¬ tx_id ≥ st.txs.length), h2]
    simp only
    rw [h3]
    simp only
    rw [h4]
    simp only
    rw [if_neg (by unfold XFF_CHAIN_MINLEN XFF_CHAIN_MAXLEN at h5 ⊢; omega)]

/-- Witness for C3: each not-found clause applied at a concrete input. -/
theorem GetXFFIPFromTx_not_found_cases_witness :
    GetXFFIPFromTx ⟨none, true, 0⟩ 0 "X-Forwarded-For" XFF_MAXLEN = none
    ∧ GetXFFIPFromTx flowChainGood 1 "X-Forwarded-For" XFF_MAXLEN = none
    ∧ GetXFFIPFromTx ⟨some ⟨[⟨none, []⟩]⟩, true, 0⟩ 0 "X-Forwarded-For" XFF_MAXLEN = none
    ∧ GetXFFIPFromTx flowChainGood 0 "X-Real-IP" XFF_MAXLEN = none
    ∧ GetXFFIPFromTx ⟨some ⟨[⟨some [("X-Forwarded-For", "1.2.3")], []⟩]⟩, true, 0⟩
        0 "X-Forwarded-For" XFF_MAXLEN = none :=
  ⟨GetXFFIPFromTx_not_found_cases.1 ⟨none, true, 0⟩ 0 "X-Forwarded-For" XFF_MAXLEN rfl,
   GetXFFIPFromTx_not_found_cases.2.1 flowChainGood ⟨[txChainGood]⟩ 1 "X-Forwarded-For"
     XFF_MAXLEN rfl (by decide),
   GetXFFIPFromTx_not_found_cases.2.2.1 ⟨some ⟨[⟨none, []⟩]⟩, true, 0⟩ ⟨[⟨none, []⟩]⟩
     ⟨none, []⟩ 0 "X-Forwarded-For" XFF_MAXLEN rfl rfl rfl,
   GetXFFIPFromTx_not_found_cases.2.2.2.1 flowChainGood ⟨[txChainGood]⟩ txChainGood
     [("X-Forwarded-For", "10.0.0.1, 203.0.113.5")] 0 "X-Real-IP" XFF_MAXLEN
     rfl rfl rfl (by decide),
   GetXFFIPFromTx_not_found_cases.2.2.2.2 ⟨some ⟨[⟨some [("X-Forwarded-For", "1.2.3")], []⟩]⟩, true, 0⟩
     ⟨[⟨some [("X-Forwarded-For", "1.2.3")], []⟩]⟩ ⟨some [("X-Forwarded-For", "1.2.3")], []⟩
     [("X-Forwarded-For", "1.2.3")] "1.2.3" "X-Forwarded-For" 0 XFF_MAXLEN
     rfl rfl rfl (by decide) (by decide)⟩

/-- An index at or beyond the transaction count yields not-found. -/
theorem GetXFFIPFromTx_out_of_range (f : Flow) (st : HtpState) (tx_id : Nat)
    (hdr : String) (dlen : Nat) (h1 : f.alstate = some st)
    (h2 : st.txs.length ≤ tx_id) : GetXFFIPFromTx f tx_id hdr dlen = none := by
  unfold GetXFFIPFromTx
  rw [h1]
  simp only
  rw [if_pos h2]

/-- A successful `GetXFFIPFromTx` implies the flow has HTTP state and the
index is within the transaction count. -/
theorem GetXFFIPFromTx_some_bounds (f : Flow) (tx_id : Nat) (hdr : String)
    (d : Nat) (ip : String) (h : GetXFFIPFromTx f tx_id hdr d = some ip) :
    ∃ st, f.alstate = some st ∧ tx_id < st.txs.length := by
  unfold GetXFFIPFromTx at h
  cases hst : f.alstate with
  | none => rw [hst] at h; exact Option.noConfusion h
  | some st =>
    rw [hst] at h
    simp only at h
    refine ⟨st, rfl, ?_⟩
    by_contra hn
    rw [if_pos (Nat.le_of_not_lt hn)] at h
    exact Option.noConfusion h

/-- The scan loop returns `none` when every transaction fails. -/
theorem GetXFFIPLoop_all_none (f : Flow) (hdr : String) (d : Nat)
    (hall : ∀ k, GetXFFIPFromTx f k hdr d = none) :
    ∀ n i, GetXFFIPLoop f hdr d i n = none := by
  intro n
  induction n with
  | zero => intro i; rfl
  | succ m ih =>
    intro i
    unfold GetXFFIPLoop
    rw [hall i]
    simp only
    exact ih (i + 1)

/-- The scan loop returns the hit of the lowest index in its window when
all lower indices in the window fail. -/
theorem GetXFFIPLoop_first (f : Flow) (hdr : String) (d : Nat) :
    ∀ n i j ip, i ≤ j → j < i + n →
      GetXFFIPFromTx f j hdr d = some ip →
      (∀ k, i ≤ k → k < j → GetXFFIPFromTx f k hdr d = none) →
      GetXFFIPLoop f hdr d i n = some ip := by
  intro n
  induction n with
  | zero => intro i j ip hij hjn _ _; omega
  | succ m ih =>
    intro i j ip hij hjn hj hmin
    unfold GetXFFIPLoop
    by_cases hii : i = j
    · subst hii
      rw [hj]
    · have hnone : GetXFFIPFromTx f i hdr d = none :=
        hmin i (Nat.le_refl i) (by omega)
      rw [hnone]
      simp only
      exact ih (i + 1) j ip (by omega) (by omega) hj
        (fun k hk1 hk2 => hmin k (by omega) hk2)

/-- Claim C4: `GetXFFIP` scans transaction indices ascending from 0 and
returns the IP of the lowest-index transaction on which `GetXFFIPFromTx`
succeeds; it returns not-found when the flow has no HTTP state, when it has
zero transactions, and when no transaction matches. -/
theorem GetXFFIP_first_match :
    (∀ (f : Flow) (hdr : String) (d j : Nat) (ip : String),
      GetXFFIPFromTx f j hdr d = some ip →
      (∀ k, k < j → GetXFFIPFromTx f k hdr d = none) →
      GetXFFIP f hdr d = some ip)
    ∧ (∀ (f : Flow) (hdr : String) (d : Nat),
      (∀ j, GetXFFIPFromTx f j hdr d = none) → GetXFFIP f hdr d = none)
    ∧ (∀ (f : Flow) (hdr : String) (d : Nat),
      f.alstate = none → GetXFFIP f hdr d = none)
    ∧ (∀ (f : Flow) (st : HtpState) (hdr : String) (d : Nat),
      f.alstate = some st → st.txs.length = 0 → GetXFFIP f hdr d = none) := by
  refine ⟨?_, ?_, ?_, ?_⟩
  · intro f hdr d j ip hj hmin
    obtain ⟨st, hst, hlt⟩ := GetXFFIPFromTx_some_bounds f j hdr d ip hj
    unfold GetXFFIP
    rw [hst]
    simp only
    exact GetXFFIPLoop_first f hdr d st.txs.length 0 j ip (Nat.zero_le j)
      (by omega) hj (fun k _ hk2 => hmin k hk2)
  · intro f hdr d hall
    unfold GetXFFIP
    cases hst : f.alstate with
    | none => rfl
    | some st =>
      simp only
      exact GetXFFIPLoop_all_none f hdr d hall st.txs.length 0
  · intro f hdr d h1
    unfold GetXFFIP
    rw [h1]
  · intro f st hdr d h1 h2
    unfold GetXFFIP
    rw [h1]
    simp only
    rw [h2]
    rfl

/-- Witness for C4: on a flow whose transaction 0 fails and transaction 1
succeeds, the scan returns transaction 1's IP; and an all-failing flow
returns not-found. -/
theorem GetXFFIP_first_match_witness :
    GetXFFIP flowScan "X-Forwarded-For" XFF_MAXLEN = some "203.0.113.5"
    ∧ GetXFFIP flowChainBad "X-Forwarded-For" XFF_MAXLEN = none :=
  ⟨GetXFFIP_first_match.1 flowScan "X-Forwarded-For" XFF_MAXLEN 1 "203.0.113.5"
     (by decide)
     (by
       intro k hk
       have hk0 : k = 0 := by omega
       subst hk0
       decide),
   GetXFFIP_first_match.2.1 flowChainBad "X-Forwarded-For" XFF_MAXLEN
     (by
       intro j
       match j with
       | 0 => decide
       | 1 => decide
       | (n + 2) =>
         exact GetXFFIPFromTx_out_of_range flowChainBad ⟨[txChainBad]⟩
           (n + 2) "X-Forwarded-For" XFF_MAXLEN rfl
           (by simp only [List.length_cons, List.length_nil]; omega))⟩

/-- A leaf configuration node with a value and no children. -/
def confLeaf (n v : String) : ConfNode := ConfNode.mk n (some v) []

/-- An `xff` subtree with `enabled=true, mode=overwrite, header=X-Real-IP`. -/
def xffNodeOverwrite : ConfNode :=
  ConfNode.mk "xff" none
    [confLeaf "enabled" "true", confLeaf "mode" "overwrite", confLeaf "header" "X-Real-IP"]

/-- An alert output configuration containing `xffNodeOverwrite`. -/
def confOverwrite : ConfNode := ConfNode.mk "alert" none [xffNodeOverwrite]

/-- An `xff` subtree with `enabled=false` but other fields present. -/
def xffNodeNotEnabled : ConfNode :=
  ConfNode.mk "xff" none
    [confLeaf "enabled" "false", confLeaf "mode" "overwrite", confLeaf "header" "X-Real-IP"]

/-- An alert output configuration containing `xffNodeNotEnabled`. -/
def confNotEnabled : ConfNode := ConfNode.mk "alert" none [xffNodeNotEnabled]

/-- An alert output configuration with no `xff` node but other children. -/
def confNoXff : ConfNode := ConfNode.mk "alert" none [confLeaf "payload" "true"]

/-- An `xff` subtree with `enabled=yes` and nothing else. -/
def xffNodeBare : ConfNode := ConfNode.mk "xff" none [confLeaf "enabled" "yes"]

/-- An alert output configuration containing `xffNodeBare`. -/
def confBare : ConfNode := ConfNode.mk "alert" none [xffNodeBare]

/-- Claim C5: `GetXFFCfg` yields a configuration (total, no error path in
release semantics) and resolves to `Disabled` for a NULL subtree, for a
configuration with no `xff` node, and whenever the `enabled` child is not
true — regardless of any other fields present (the initial result contents
other than the assigned mode are untouched). -/
theorem GetXFFCfg_disabled_cases :
    (∀ result : XFFCfg, GetXFFCfg none result = { result with mode := XFF_DISABLED })
    ∧ (∀ (conf : ConfNode) (result : XFFCfg),
      ConfNodeLookupChild conf "xff" = none →
      GetXFFCfg (some conf) result = { result with mode := XFF_DISABLED })
    ∧ (∀ (conf xn : ConfNode) (result : XFFCfg),
      ConfNodeLookupChild conf "xff" = some xn →
      ConfNodeChildValueIsTrue xn "enabled" = false →
      GetXFFCfg (some conf) result = { result with mode := XFF_DISABLED }) := by
  refine ⟨fun result => rfl, ?_, ?_⟩
  · intro conf result h
    unfold GetXFFCfg
    simp only
    rw [h]
  · intro conf xn result h1 h2
    unfold GetXFFCfg
    simp only
    rw [h1]
    simp only
    rw [h2]
    simp only [Bool.false_eq_true, if_false]

/-- Witness for C5: the disabled clauses applied to concrete
configurations, from a dirty initial result. -/
theorem GetXFFCfg_disabled_cases_witness :
    GetXFFCfg none ⟨7, some "junk"⟩ = ⟨XFF_DISABLED, some "junk"⟩
    ∧ GetXFFCfg (some confNoXff) ⟨7, some "junk"⟩ = ⟨XFF_DISABLED, some "junk"⟩
    ∧ GetXFFCfg (some confNotEnabled) ⟨7, some "junk"⟩ = ⟨XFF_DISABLED, some "junk"⟩ :=
  ⟨GetXFFCfg_disabled_cases.1 ⟨7, some "junk"⟩,
   GetXFFCfg_disabled_cases.2.1 confNoXff ⟨7, some "junk"⟩ rfl,
   GetXFFCfg_disabled_cases.2.2 confNotEnabled xffNodeNotEnabled ⟨7, some "junk"⟩
     rfl (by decide)⟩

/-- Claim C6: with `enabled` true and a zero-initialised result, the mode is
`Overwrite` exactly when the mode string equals `"overwrite"`
case-insensitively and `ExtraData` for any other or absent value; the header
is the configured value verbatim when present and `"X-Forwarded-For"` when
absent.  In particular `enabled=true, mode=overwrite, header=X-Real-IP`
yields `Overwrite` with header `X-Real-IP`.  (The warnings emitted for an
absent or unrecognised mode and an absent header are log side effects
outside the embedding.) -/
theorem GetXFFCfg_enabled_cases :
    (∀ (conf xn : ConfNode) (ms : String),
      ConfNodeLookupChild conf "xff" = some xn →
      ConfNodeChildValueIsTrue xn "enabled" = true →
      ConfNodeLookupChildValue xn "mode" = some ms →
      lowerEqS ms "overwrite" = true →
      (GetXFFCfg (some conf) ⟨0, none⟩).mode = XFF_OVERWRITE)
    ∧ (∀ (conf xn : ConfNode) (ms : String),
      ConfNodeLookupChild conf "xff" = some xn →
      ConfNodeChildValueIsTrue xn "enabled" = true →
      ConfNodeLookupChildValue xn "mode" = some ms →
      lowerEqS ms "overwrite" = false →
      (GetXFFCfg (some conf) ⟨0, none⟩).mode = XFF_EXTRADATA)
    ∧ (∀ (conf xn : ConfNode),
      ConfNodeLookupChild conf "xff" = some xn →
      ConfNodeChildValueIsTrue xn "enabled" = true →
      ConfNodeLookupChildValue xn "mode" = none →
      (GetXFFCfg (some conf) ⟨0, none⟩).mode = XFF_EXTRADATA)
    ∧ (∀ (conf xn : ConfNode) (hv : String),
      ConfNodeLookupChild conf "xff" = some xn →
      ConfNodeChildValueIsTrue xn "enabled" = true →
      ConfNodeLookupChildValue xn "header" = some hv →
      (GetXFFCfg (some conf) ⟨0, none⟩).header = some hv)
    ∧ (∀ (conf xn : ConfNode),
      ConfNodeLookupChild conf "xff" = some xn →
      ConfNodeChildValueIsTrue xn "enabled" = true →
      ConfNodeLookupChildValue xn "header" = none →
      (GetXFFCfg (some conf) ⟨0, none⟩).header = some XFF_DEFAULT)
    ∧ GetXFFCfg (some confOverwrite) ⟨0, none⟩ = ⟨XFF_OVERWRITE, some "X-Real-IP"⟩ := by
  refine ⟨?_, ?_, ?_, ?_, ?_, by decide⟩
  · intro conf xn ms h1 h2 h3 h4
    unfold GetXFFCfg
    simp only
    rw [h1]
    simp only
    rw [h2]
    simp only [if_true]
    rw [h3]
    simp only
    rw [h4]
    simp only [if_true]
    cases hh : ConfNodeLookupChildValue xn "header" <;> simp
  · intro conf xn ms h1 h2 h3 h4
    unfold GetXFFCfg
    simp only
    rw [h1]
    simp only
    rw [h2]
    simp only [if_true]
    rw [h3]
    simp only
    rw [h4]
    simp only [Bool.false_eq_true, if_false]
    cases hh : ConfNodeLookupChildValue xn "header" <;> simp
  · intro conf xn h1 h2 h3
    unfold GetXFFCfg
    simp only
    rw [h1]
    simp only
    rw [h2]
    simp only [if_true]
    rw [h3]
    simp only
    cases hh : ConfNodeLookupChildValue xn "header" <;> simp
  · intro conf xn hv h1 h2 h3
    unfold GetXFFCfg
    simp only
    rw [h1]
    simp only
    rw [h2]
    simp only [if_true]
    cases hm : ConfNodeLookupChildValue xn "mode" with
    | none => simp only; rw [h3]
    | some ms =>
      simp only
      by_cases h4 : lowerEqS ms "overwrite" <;> simp only [h4, if_true,
        Bool.false_eq_true, if_false] <;> rw [h3]
  · intro conf xn h1 h2 h3
    unfold GetXFFCfg
    simp only
    rw [h1]
    simp only
    rw [h2]
    simp only [if_true]
    cases hm : ConfNodeLookupChildValue xn "mode" with
    | none => simp only; rw [h3]
    | some ms =>
      simp only
      by_cases h4 : lowerEqS ms "overwrite" <;> simp only [h4, if_true,
        Bool.false_eq_true, if_false] <;> rw [h3]

/-- Witness for C6: the overwrite-mode and verbatim-header clauses applied
to the concrete `enabled=true, mode=overwrite, header=X-Real-IP`
configuration, and the defaulting clauses applied to a bare enabled
configuration. -/
theorem GetXFFCfg_enabled_cases_witness :
    (GetXFFCfg (some confOverwrite) ⟨0, none⟩).mode = XFF_OVERWRITE
    ∧ (GetXFFCfg (some confOverwrite) ⟨0, none⟩).header = some "X-Real-IP"
    ∧ (GetXFFCfg (some confBare) ⟨0, none⟩).mode = XFF_EXTRADATA
    ∧ (GetXFFCfg (some confBare) ⟨0, none⟩).header = some XFF_DEFAULT :=
  ⟨GetXFFCfg_enabled_cases.1 confOverwrite xffNodeOverwrite "overwrite" rfl
     (by decide) (by decide) (by decide),
   GetXFFCfg_enabled_cases.2.2.2.1 confOverwrite xffNodeOverwrite "X-Real-IP" rfl
     (by decide) (by decide),
   GetXFFCfg_enabled_cases.2.2.1 confBare xffNodeBare rfl (by decide) (by decide),
   GetXFFCfg_enabled_cases.2.2.2.2.1 confBare xffNodeBare rfl (by decide) (by decide)⟩

/-- Counterexample to claim C7 as stated: from initial result contents with
the `XFF_EXTRADATA` bit already present, the enabled/overwrite branch ORs
`XFF_OVERWRITE` on top (`result->mode |= XFF_OVERWRITE`), leaving both the
ExtraData and the Overwrite bits set — not exactly one defined state. -/
theorem GetXFFCfg_dirty_init_both_modes :
    (GetXFFCfg (some confOverwrite) ⟨XFF_EXTRADATA, none⟩).mode = 6
    ∧ (GetXFFCfg (some confOverwrite) ⟨XFF_EXTRADATA, none⟩).mode &&& XFF_EXTRADATA ≠ 0
    ∧ (GetXFFCfg (some confOverwrite) ⟨XFF_EXTRADATA, none⟩).mode &&& XFF_OVERWRITE ≠ 0 := by
  refine ⟨by decide, by decide, by decide⟩

/-- Claim C7 as amended: after a run of `GetXFFCfg` from a zero-initialised
result structure, the configuration is in exactly one of the three defined
states — Disabled, ExtraData with a defined header, or Overwrite with a
defined header. -/
theorem GetXFFCfg_zero_init_exactly_one :
    ∀ conf : Option ConfNode,
      (GetXFFCfg conf ⟨0, none⟩).mode = XFF_DISABLED
      ∨ ((GetXFFCfg conf ⟨0, none⟩).mode = XFF_EXTRADATA
          ∧ (GetXFFCfg conf ⟨0, none⟩).header.isSome = true)
      ∨ ((GetXFFCfg conf ⟨0, none⟩).mode = XFF_OVERWRITE
          ∧ (GetXFFCfg conf ⟨0, none⟩).header.isSome = true) := by
  intro conf
  match conf with
  | none => exact Or.inl rfl
  | some c =>
    unfold GetXFFCfg
    simp only
    cases hx : ConfNodeLookupChild c "xff" with
    | none => exact Or.inl rfl
    | some xn =>
      simp only
      by_cases he : ConfNodeChildValueIsTrue xn "enabled" = true
      · rw [if_pos he]
        cases hm : ConfNodeLookupChildValue xn "mode" with
        | none =>
          simp only
          cases hh : ConfNodeLookupChildValue xn "header" with
          | none => exact Or.inr (Or.inl ⟨rfl, rfl⟩)
          | some hv => exact Or.inr (Or.inl ⟨rfl, rfl⟩)
        | some ms =>
          simp only
          by_cases h4 : lowerEqS ms "overwrite" = true
          · rw [if_pos h4]
            cases hh : ConfNodeLookupChildValue xn "header" with
            | none => exact Or.inr (Or.inr ⟨rfl, rfl⟩)
            | some hv => exact Or.inr (Or.inr ⟨rfl, rfl⟩)
          · rw [if_neg h4]
            cases hh : ConfNodeLookupChildValue xn "header" with
            | none => exact Or.inr (Or.inl ⟨rfl, rfl⟩)
            | some hv => exact Or.inr (Or.inl ⟨rfl, rfl⟩)
      · rw [if_neg he]
        exact Or.inl rfl

/-- Witness for the amended C7: the exactly-one-state conclusion at the
concrete overwrite configuration. -/
theorem GetXFFCfg_zero_init_exactly_one_witness :
    (GetXFFCfg (some confOverwrite) ⟨0, none⟩).mode = XFF_DISABLED
    ∨ ((GetXFFCfg (some confOverwrite) ⟨0, none⟩).mode = XFF_EXTRADATA
        ∧ (GetXFFCfg (some confOverwrite) ⟨0, none⟩).header.isSome = true)
    ∨ ((GetXFFCfg (some confOverwrite) ⟨0, none⟩).mode = XFF_OVERWRITE
        ∧ (GetXFFCfg (some confOverwrite) ⟨0, none⟩).header.isSome = true) :=
  GetXFFCfg_zero_init_exactly_one (some confOverwrite)

/-! ## Fixtures for the alert record builder claims -/

/-- A concrete signature. -/
def sigFixture : Signature := ⟨1, 2024, 3, some "test sig", some "test cat", 2⟩

/-- A plain alert (not transaction-scoped, not stream-matched). -/
def alertPlain : PacketAlert := ⟨some sigFixture, false, false, false, false, false, 0⟩

/-- A transaction-scoped alert for transaction 0. -/
def alertTx : PacketAlert := ⟨some sigFixture, false, false, true, false, false, 0⟩

/-- An oracle on which every allocation succeeds. -/
def orcAllOk : AllocOracle := ⟨true, fun _ => true, fun _ => true⟩

/-- An oracle on which every per-alert `json_object()` fails. -/
def orcAjsFail : AllocOracle := ⟨true, fun _ => false, fun _ => true⟩

/-- An output context with extra-data XFF mode and the default header. -/
def ctxXffExtra : AlertJsonOutputCtx := ⟨0, ⟨XFF_EXTRADATA, some "X-Forwarded-For"⟩, false⟩

/-- An output context with overwrite XFF mode and the default header. -/
def ctxXffOver : AlertJsonOutputCtx := ⟨0, ⟨XFF_OVERWRITE, some "X-Forwarded-For"⟩, false⟩

/-- A to-client packet on the good-chain HTTP flow with one
transaction-scoped alert. -/
def pktToClient : Packet :=
  { alerts := [alertTx], flow := some flowChainGood, proto_tcp := true,
    flow_toserver := false, flow_toclient := true, payload := [],
    pkt_data := [], stream_seg := fun _ => [], baseJson := [] }

/-- The same packet in the to-server direction. -/
def pktToServer : Packet :=
  { alerts := [alertTx], flow := some flowChainGood, proto_tcp := true,
    flow_toserver := true, flow_toclient := false, payload := [],
    pkt_data := [], stream_seg := fun _ => [], baseJson := [] }

/-- Claim C8: whenever XFF resolution succeeds for an alert, extra-data
mode attaches the resolved IP as a side field `xff` without altering
`dest_ip` or `src_ip`, while overwrite mode replaces `dest_ip` when the
packet direction is to-client and `src_ip` otherwise. -/
theorem xffSection_modes :
    ∀ (ctx : AlertJsonOutputCtx) (p : Packet) (pa : PacketAlert) (f : Flow)
      (js : Obj) (ip : String),
      p.flow = some f → resolveXFF ctx pa f = some ip →
      ((ctx.xff_cfg.mode = XFF_EXTRADATA →
        xffSection ctx p pa js = setKey js "xff" (JVal.jstr ip)
        ∧ getKey (xffSection ctx p pa js) "dest_ip" = getKey js "dest_ip"
        ∧ getKey (xffSection ctx p pa js) "src_ip" = getKey js "src_ip")
      ∧ (ctx.xff_cfg.mode = XFF_OVERWRITE →
        (p.flow_toclient = true →
          xffSection ctx p pa js = setKey js "dest_ip" (JVal.jstr ip))
        ∧ (p.flow_toclient = false →
          xffSection ctx p pa js = setKey js "src_ip" (JVal.jstr ip)))) := by
  intro ctx p pa f js ip hflow hres
  have hextra : ctx.xff_cfg.mode = XFF_EXTRADATA →
      xffSection ctx p pa js = setKey js "xff" (JVal.jstr ip) := by
    intro hm
    unfold xffSection
    rw [hflow]
    simp only
    rw [hm, if_pos (by decide : XFF_EXTRADATA &&& XFF_DISABLED = 0), hres]
    simp only
    rw [if_pos (by decide : (XFF_EXTRADATA &&& XFF_EXTRADATA != 0) = true)]
  constructor
  · intro hm
    refine ⟨hextra hm, ?_, ?_⟩
    · rw [hextra hm]
      exact getKey_setKey_ne js "xff" "dest_ip" (JVal.jstr ip) (by decide)
    · rw [hextra hm]
      exact getKey_setKey_ne js "xff" "src_ip" (JVal.jstr ip) (by decide)
  · intro hm
    constructor
    · intro htc
      unfold xffSection
      rw [hflow]
      simp only
      rw [hm, if_pos (by decide : XFF_OVERWRITE &&& XFF_DISABLED = 0), hres]
      simp only
      rw [if_neg (by decide : ¬ (XFF_OVERWRITE &&& XFF_EXTRADATA != 0) = true),
        if_pos (by decide : (XFF_OVERWRITE &&& XFF_OVERWRITE != 0) = true),
        if_pos htc]
    · intro htc
      unfold xffSection
      rw [hflow]
      simp only
      rw [hm, if_pos (by decide : XFF_OVERWRITE &&& XFF_DISABLED = 0), hres]
      simp only
      rw [if_neg (by decide : ¬ (XFF_OVERWRITE &&& XFF_EXTRADATA != 0) = true),
        if_pos (by decide : (XFF_OVERWRITE &&& XFF_OVERWRITE != 0) = true),
        if_neg (by simp [htc])]

/-- Witness for C8: extra-data mode attaches `xff`, overwrite mode replaces
`dest_ip` on a to-client packet and `src_ip` on a to-server packet, for the
concrete good-chain flow. -/
theorem xffSection_modes_witness :
    xffSection ctxXffExtra pktToClient alertTx [] =
      setKey [] "xff" (JVal.jstr "203.0.113.5")
    ∧ xffSection ctxXffOver pktToClient alertTx [] =
      setKey [] "dest_ip" (JVal.jstr "203.0.113.5")
    ∧ xffSection ctxXffOver pktToServer alertTx [] =
      setKey [] "src_ip" (JVal.jstr "203.0.113.5") :=
  ⟨((xffSection_modes ctxXffExtra pktToClient alertTx flowChainGood []
      "203.0.113.5" rfl (by decide)).1 rfl).1,
   (((xffSection_modes ctxXffOver pktToClient alertTx flowChainGood []
      "203.0.113.5" rfl (by decide)).2 rfl).1 rfl),
   (((xffSection_modes ctxXffOver pktToServer alertTx flowChainGood []
      "203.0.113.5" rfl (by decide)).2 rfl).2 rfl)⟩

/-- An output context logging only the raw packet capture, XFF disabled. -/
def ctxPacketOnly : AlertJsonOutputCtx := ⟨LOG_JSON_PACKET, ⟨XFF_DISABLED, none⟩, false⟩

/-- A flowless packet carrying two alerts. -/
def pktTwoAlerts : Packet :=
  { alerts := [alertPlain, alertPlain], flow := none, proto_tcp := false,
    flow_toserver := false, flow_toclient := false, payload := [],
    pkt_data := [1, 2, 3], stream_seg := fun _ => [],
    baseJson := [("timestamp", JVal.jstr "2014-01-01T00:00:00.000000+0000")] }

/-- A packet with no alerts. -/
def pktNoAlerts : Packet :=
  { alerts := [], flow := none, proto_tcp := false,
    flow_toserver := false, flow_toclient := false, payload := [],
    pkt_data := [], stream_seg := fun _ => [], baseJson := [] }

/-- Claim C9: `AlertJson` reports the success code for every packet and
every allocation outcome; a packet with zero alerts (or a failed header
allocation) emits zero records; a failed per-alert `json_object()`
allocation stops emission of the remaining alerts while a successful one
emits its record ahead of whatever the remaining alerts produce, leaving
already-emitted records in place. -/
theorem AlertJson_nonfatal :
    (∀ (ctx : AlertJsonOutputCtx) (p : Packet) (orc : AllocOracle),
      (AlertJson ctx p orc).2 = TM_ECODE_OK)
    ∧ (∀ (ctx : AlertJsonOutputCtx) (p : Packet) (orc : AllocOracle),
      p.alerts = [] → (AlertJson ctx p orc).1 = [])
    ∧ (∀ (ctx : AlertJsonOutputCtx) (p : Packet) (orc : AllocOracle),
      orc.header_ok = false → (AlertJson ctx p orc).1 = [])
    ∧ (∀ (ctx : AlertJsonOutputCtx) (p : Packet) (orc : AllocOracle)
        (i : Nat) (js : Obj) (pa : PacketAlert) (rest : List PacketAlert)
        (s : Signature),
      pa.s = some s → orc.ajs_ok i = false →
      runAlerts ctx p orc i (pa :: rest) js = [])
    ∧ (∀ (ctx : AlertJsonOutputCtx) (p : Packet) (orc : AllocOracle)
        (i : Nat) (js : Obj) (pa : PacketAlert) (rest : List PacketAlert)
        (s : Signature),
      pa.s = some s → orc.ajs_ok i = true →
      runAlerts ctx p orc i (pa :: rest) js =
        buildRecord ctx p (orc.hjs_ok i) pa s js ::
          runAlerts ctx p orc (i + 1) rest
            (delKey (buildRecord ctx p (orc.hjs_ok i) pa s js) "alert")) := by
  refine ⟨?_, ?_, ?_, ?_, ?_⟩
  · intro ctx p orc
    unfold AlertJson
    split
    · rfl
    · split <;> rfl
  · intro ctx p orc h
    unfold AlertJson
    rw [if_pos (by rw [h]; rfl)]
  · intro ctx p orc h
    unfold AlertJson
    split
    · rfl
    · rw [h]
      simp
  · intro ctx p orc i js pa rest s hs ha
    unfold runAlerts
    rw [hs]
    simp only
    rw [if_neg (by simp [ha])]
  · intro ctx p orc i js pa rest s hs ha
    conv_lhs => unfold runAlerts
    rw [hs]
    simp only
    rw [if_pos ha]

/-- Witness for C9: the zero-alert clauses and both loop-step clauses
applied at concrete packets and oracles. -/
theorem AlertJson_nonfatal_witness :
    (AlertJson ctxPacketOnly pktNoAlerts orcAllOk).2 = TM_ECODE_OK
    ∧ (AlertJson ctxPacketOnly pktNoAlerts orcAllOk).1 = []
    ∧ (AlertJson ctxPacketOnly pktTwoAlerts ⟨false, fun _ => true, fun _ => true⟩).1 = []
    ∧ runAlerts ctxPacketOnly pktTwoAlerts orcAjsFail 0 pktTwoAlerts.alerts
        pktTwoAlerts.baseJson = []
    ∧ runAlerts ctxPacketOnly pktTwoAlerts orcAllOk 0 pktTwoAlerts.alerts
        pktTwoAlerts.baseJson =
        buildRecord ctxPacketOnly pktTwoAlerts true alertPlain sigFixture
            pktTwoAlerts.baseJson ::
          runAlerts ctxPacketOnly pktTwoAlerts orcAllOk 1 [alertPlain]
            (delKey (buildRecord ctxPacketOnly pktTwoAlerts true alertPlain sigFixture
              pktTwoAlerts.baseJson) "alert") :=
  ⟨AlertJson_nonfatal.1 ctxPacketOnly pktNoAlerts orcAllOk,
   AlertJson_nonfatal.2.1 ctxPacketOnly pktNoAlerts orcAllOk rfl,
   AlertJson_nonfatal.2.2.1 ctxPacketOnly pktTwoAlerts
     ⟨false, fun _ => true, fun _ => true⟩ rfl,
   AlertJson_nonfatal.2.2.2.1 ctxPacketOnly pktTwoAlerts orcAjsFail 0
     pktTwoAlerts.baseJson alertPlain [alertPlain] sigFixture rfl rfl,
   AlertJson_nonfatal.2.2.2.2 ctxPacketOnly pktTwoAlerts orcAllOk 0
     pktTwoAlerts.baseJson alertPlain [alertPlain] sigFixture rfl rfl⟩

/-! ## Frame machinery for C10 -/

/-- The enrichment keys the record builder may (over)write besides `alert`. -/
def writableKeys : List String :=
  ["http", "payload", "payload_printable", "stream", "packet", "xff",
   "dest_ip", "src_ip"]

/-- All keys the record builder may write. -/
def recordKeys : List String := "alert" :: writableKeys

/-- `o'` extends `o` writing only keys in `S`: every key outside `S` is
unchanged, and no key present in `o` disappears. -/
def extendsOnly (S : List String) (o o' : Obj) : Prop :=
  (∀ k, ¬ k ∈ S → getKey o' k = getKey o k)
  ∧ (∀ k v, getKey o k = some v → ∃ v', getKey o' k = some v')

theorem extendsOnly_refl (S : List String) (o : Obj) : extendsOnly S o o :=
  ⟨fun _ _ => rfl, fun _ v h => ⟨v, h⟩⟩

theorem extendsOnly_trans {S : List String} {o₁ o₂ o₃ : Obj}
    (h1 : extendsOnly S o₁ o₂) (h2 : extendsOnly S o₂ o₃) :
    extendsOnly S o₁ o₃ := by
  refine ⟨fun k hk => (h2.1 k hk).trans (h1.1 k hk), fun k v h => ?_⟩
  obtain ⟨v', hv'⟩ := h1.2 k v h
  exact h2.2 k v' hv'

theorem extendsOnly_setKey (S : List String) (o : Obj) (k : String) (v : JVal)
    (hk : k ∈ S) : extendsOnly S o (setKey o k v) := by
  constructor
  · intro k' hk'
    exact getKey_setKey_ne o k k' v (fun he => hk' (he ▸ hk))
  · intro k' v' h
    by_cases he : k' = k
    · subst he
      exact ⟨v, getKey_setKey_same o k' v⟩
    · exact ⟨v', by rw [getKey_setKey_ne o k k' v he]; exact h⟩

theorem extendsOnly_setIf (S : List String) (b : Bool) (k : String) (v : JVal)
    (o : Obj) (hk : k ∈ S) : extendsOnly S o (setIf b k v o) := by
  unfold setIf
  by_cases hb : b = true
  · rw [if_pos hb]
    exact extendsOnly_setKey S o k v hk
  · rw [if_neg hb]
    exact extendsOnly_refl S o

theorem AlertJsonHttp_extends (f : Flow) (hok : Bool) (js : Obj) :
    extendsOnly recordKeys js (AlertJsonHttp f hok js) := by
  unfold AlertJsonHttp
  cases f.alstate with
  | none => exact extendsOnly_refl _ _
  | some st =>
    simp only
    cases st.txs.get? f.logged_tx_id with
    | none => exact extendsOnly_refl _ _
    | some tx =>
      simp only
      by_cases h : hok = true
      · rw [if_pos h]
        exact extendsOnly_setKey _ _ _ _ (by decide)
      · rw [if_neg h]
        exact extendsOnly_refl _ _

theorem httpSection_extends (ctx : AlertJsonOutputCtx) (p : Packet)
    (hok : Bool) (js : Obj) : extendsOnly recordKeys js (httpSection ctx p hok js) := by
  unfold httpSection
  by_cases hf : (ctx.flags &&& LOG_JSON_HTTP != 0) = true
  · rw [if_pos hf]
    cases p.flow with
    | none => exact extendsOnly_refl _ _
    | some f =>
      simp only
      by_cases hh : f.isHTTP = true
      · rw [if_pos hh]
        exact AlertJsonHttp_extends f hok js
      · rw [if_neg hh]
        exact extendsOnly_refl _ _
  · rw [if_neg hf]
    exact extendsOnly_refl _ _

theorem payloadSection_extends (ctx : AlertJsonOutputCtx) (p : Packet)
    (pa : PacketAlert) (js : Obj) :
    extendsOnly recordKeys js (payloadSection ctx p pa js) := by
  unfold payloadSection
  by_cases hf : (ctx.flags &&& (LOG_JSON_PAYLOAD ||| LOG_JSON_PAYLOAD_BASE64) != 0) = true
  · rw [if_pos hf]
    exact extendsOnly_trans
      (extendsOnly_trans
        (extendsOnly_setIf _ _ _ _ _ (by decide))
        (extendsOnly_setIf _ _ _ _ _ (by decide)))
      (extendsOnly_setKey _ _ _ _ (by decide))
  · rw [if_neg hf]
    exact extendsOnly_refl _ _

theorem packetSection_extends (ctx : AlertJsonOutputCtx) (p : Packet)
    (js : Obj) : extendsOnly recordKeys js (packetSection ctx p js) := by
  unfold packetSection
  exact extendsOnly_setIf _ _ _ _ _ (by decide)

theorem xffSection_extends (ctx : AlertJsonOutputCtx) (p : Packet)
    (pa : PacketAlert) (js : Obj) :
    extendsOnly recordKeys js (xffSection ctx p pa js) := by
  unfold xffSection
  cases p.flow with
  | none => exact extendsOnly_refl _ _
  | some f =>
    simp only
    by_cases h1 : ctx.xff_cfg.mode &&& XFF_DISABLED = 0
    · rw [if_pos h1]
      cases resolveXFF ctx pa f with
      | none => exact extendsOnly_refl _ _
      | some ip =>
        simp only
        by_cases h2 : (ctx.xff_cfg.mode &&& XFF_EXTRADATA != 0) = true
        · rw [if_pos h2]
          exact extendsOnly_setKey _ _ _ _ (by decide)
        · rw [if_neg h2]
          by_cases h3 : (ctx.xff_cfg.mode &&& XFF_OVERWRITE != 0) = true
          · rw [if_pos h3]
            by_cases h4 : p.flow_toclient = true
            · rw [if_pos h4]
              exact extendsOnly_setKey _ _ _ _ (by decide)
            · rw [if_neg h4]
              exact extendsOnly_setKey _ _ _ _ (by decide)
          · rw [if_neg h3]
            exact extendsOnly_refl _ _
    · rw [if_neg h1]
      exact extendsOnly_refl _ _

theorem buildRecord_extends (ctx : AlertJsonOutputCtx) (p : Packet)
    (hok : Bool) (pa : PacketAlert) (s : Signature) (js : Obj) :
    extendsOnly recordKeys js (buildRecord ctx p hok pa s js) := by
  unfold buildRecord
  exact extendsOnly_trans
    (extendsOnly_trans
      (extendsOnly_trans
        (extendsOnly_trans
          (extendsOnly_setKey _ _ _ _ (by decide))
          (httpSection_extends ctx p hok _))
        (payloadSection_extends ctx p pa _))
      (packetSection_extends ctx p _))
    (xffSection_extends ctx p pa _)

/-- The head of a non-empty `runAlerts` output is the record built from
the current shared object (skipped NULL-signature alerts leave it
untouched). -/
theorem runAlerts_head (ctx : AlertJsonOutputCtx) (p : Packet) (orc : AllocOracle) :
    ∀ (alerts : List PacketAlert) (i : Nat) (js : Obj) (r : Obj),
      (runAlerts ctx p orc i alerts js).head? = some r →
      ∃ i' pa s, pa.s = some s ∧ r = buildRecord ctx p (orc.hjs_ok i') pa s js := by
  intro alerts
  induction alerts with
  | nil =>
    intro i js r h
    exact Option.noConfusion h
  | cons pa rest ih =>
    intro i js r h
    cases hs : pa.s with
    | none =>
      unfold runAlerts at h
      rw [hs] at h
      exact ih (i + 1) js r h
    | some s =>
      unfold runAlerts at h
      rw [hs] at h
      simp only at h
      by_cases ha : orc.ajs_ok i = true
      · rw [if_pos ha] at h
        rw [List.head?_cons] at h
        exact ⟨i, pa, s, hs, (Option.some.inj h).symm⟩
      · rw [if_neg ha] at h
        exact Option.noConfusion h

/-- Consecutive records of `runAlerts` are linked by deleting only the
`alert` key and rebuilding. -/
theorem runAlerts_chain (ctx : AlertJsonOutputCtx) (p : Packet) (orc : AllocOracle) :
    ∀ (alerts : List PacketAlert) (i : Nat) (js : Obj) (j : Nat) (r r' : Obj),
      (runAlerts ctx p orc i alerts js).get? j = some r →
      (runAlerts ctx p orc i alerts js).get? (j + 1) = some r' →
      ∃ i' pa s, pa.s = some s ∧
        r' = buildRecord ctx p (orc.hjs_ok i') pa s (delKey r "alert") := by
  intro alerts
  induction alerts with
  | nil =>
    intro i js j r r' h h'
    exact Option.noConfusion h
  | cons pa rest ih =>
    intro i js j r r' h h'
    cases hs : pa.s with
    | none =>
      unfold runAlerts at h h'
      rw [hs] at h h'
      exact ih (i + 1) js j r r' h h'
    | some s =>
      unfold runAlerts at h h'
      rw [hs] at h h'
      simp only at h h'
      by_cases ha : orc.ajs_ok i = true
      · rw [if_pos ha] at h h'
        cases j with
        | zero =>
          rw [List.get?_cons_zero] at h
          rw [List.get?_cons_succ, List.get?_zero] at h'
          obtain ⟨i', pa', s', hs', hr'⟩ :=
            runAlerts_head ctx p orc rest (i + 1)
              (delKey (buildRecord ctx p (orc.hjs_ok i) pa s js) "alert") r' h'
          rw [Option.some.inj h] at hr'
          exact ⟨i', pa', s', hs', hr'⟩
        | succ n =>
          rw [List.get?_cons_succ] at h h'
          exact ih (i + 1) (delKey (buildRecord ctx p (orc.hjs_ok i) pa s js) "alert")
            n r r' h h'
      · rw [if_neg ha] at h
        exact Option.noConfusion h

/-- Claim C10: within one packet, after an alert's record is emitted only
the `alert` sub-object is removed from the shared record object before the
next alert is processed: every other key present in an emitted record is
still present in the next alert's record, with the same value unless it is
one of the enrichment keys the builder may overwrite
(`http`, `payload`, `payload_printable`, `stream`, `packet`, `xff`,
`dest_ip`, `src_ip`). -/
theorem AlertJson_frame_effect :
    ∀ (ctx : AlertJsonOutputCtx) (p : Packet) (orc : AllocOracle)
      (i : Nat) (alerts : List PacketAlert) (js : Obj) (j : Nat)
      (r r' : Obj) (k : String) (v : JVal),
      (runAlerts ctx p orc i alerts js).get? j = some r →
      (runAlerts ctx p orc i alerts js).get? (j + 1) = some r' →
      k ≠ "alert" → getKey r k = some v →
      ∃ v', getKey r' k = some v' ∧ (v' = v ∨ k ∈ writableKeys) := by
  intro ctx p orc i alerts js j r r' k v h h' hk hv
  obtain ⟨i', pa, s, hs, hr'⟩ := runAlerts_chain ctx p orc alerts i js j r r' h h'
  have hdel : getKey (delKey r "alert") k = some v := by
    rw [getKey_delKey_ne r "alert" k hk]
    exact hv
  have hext := buildRecord_extends ctx p (orc.hjs_ok i') pa s (delKey r "alert")
  by_cases hw : k ∈ writableKeys
  · obtain ⟨v', hv'⟩ := hext.2 k v hdel
    exact ⟨v', by rw [hr']; exact hv', Or.inr hw⟩
  · have hnot : ¬ k ∈ recordKeys := by
      intro hmem
      rcases List.mem_cons.mp hmem with h1 | h2
      · exact hk h1
      · exact hw h2
    refine ⟨v, ?_, Or.inl rfl⟩
    rw [hr', hext.1 k hnot]
    exact hdel

/-- The records of the two-alert fixture run. -/
def runFixture : List Obj :=
  runAlerts ctxPacketOnly pktTwoAlerts orcAllOk 0 pktTwoAlerts.alerts
    pktTwoAlerts.baseJson

/-- The first emitted record of the fixture run. -/
def recFirst : Obj := runFixture.headD []

/-- The second emitted record of the fixture run. -/
def recSecond : Obj := (runFixture.drop 1).headD []

/-- Witness for C10: in the concrete two-alert run, the `packet` key of
the first record persists into the second record. -/
theorem AlertJson_frame_effect_witness :
    ∃ v', getKey recSecond "packet" = some v'
      ∧ (v' = JVal.jstr (base64Encode [1, 2, 3]) ∨ "packet" ∈ writableKeys) :=
  AlertJson_frame_effect ctxPacketOnly pktTwoAlerts orcAllOk 0
    pktTwoAlerts.alerts pktTwoAlerts.baseJson 0 recFirst recSecond "packet"
    (JVal.jstr (base64Encode [1, 2, 3])) rfl rfl (by decide) rfl

/-! ## C1: the `http` flag and the payload flags overlap -/

/-- An `eve-log.alert` sub-module configuration enabling only
`payload-printable`; `http` is absent (disabled). -/
def confPayloadPrintableOnly : AlertSubConf :=
  { payload := none, packet := none, payload_printable := some "true", http := none }

/-- An HTTP transaction carrying a summary object. -/
def txHttpSummary : HtpTx :=
  { request_headers := some [], summary := [("hostname", JVal.jstr "example.com")] }

/-- An HTTP flow whose currently-logged transaction is `txHttpSummary`. -/
def flowHttp : Flow := { alstate := some ⟨[txHttpSummary]⟩, isHTTP := true, logged_tx_id := 0 }

/-- The output context resulting from `confPayloadPrintableOnly`, with XFF
disabled. -/
def ctxPayloadPrintableOnly : AlertJsonOutputCtx :=
  ⟨JsonAlertLogFlags confPayloadPrintableOnly, ⟨XFF_DISABLED, none⟩, false⟩

/-- A packet with one alert on the HTTP flow. -/
def pktHttpAlert : Packet :=
  { alerts := [alertPlain], flow := some flowHttp, proto_tcp := true,
    flow_toserver := true, flow_toclient := false, payload := [],
    pkt_data := [], stream_seg := fun _ => [], baseJson := [] }

/-- Claim C1 is violated by the code (code bug): with the `http` sub-module
flag absent and only `payload-printable` enabled, the configured flags are
exactly `LOG_JSON_PAYLOAD = 1`; because the source defines `LOG_JSON_HTTP`
as `5 = LOG_JSON_PAYLOAD ||| LOG_JSON_PAYLOAD_BASE64` instead of a fresh
bit, the guard `flags & LOG_JSON_HTTP` is nonzero and the emitted record
for an alert on an HTTP flow carries the HTTP summary object anyway. -/
theorem AlertJson_http_flag_overlap :
    confPayloadPrintableOnly.http = none
    ∧ JsonAlertLogFlags confPayloadPrintableOnly = LOG_JSON_PAYLOAD
    ∧ LOG_JSON_PAYLOAD &&& LOG_JSON_HTTP ≠ 0
    ∧ getKey ((AlertJson ctxPayloadPrintableOnly pktHttpAlert orcAllOk).1.headD [])
        "http" = some (JVal.jobj [("hostname", JVal.jstr "example.com")]) :=
  ⟨rfl, by decide, by decide, rfl⟩

end Suricata
